import Mathlib

/-!
Shallow embedding of the article-selection engine of the story tracker app.

Source files embedded:
* `src/models/article.py` — `Article`, `Subscriber` dataclasses, `FallbackManager`,
  `ArticleSelector`.
* `src/models/database.py` — `DatabaseManager`: the `articles`, `subscribers`,
  `article_sends` and `admin_settings` tables, `add_article`,
  `get_fresh_articles_for_subscriber`, `record_article_send`, `get_setting`.
* `src/services/email_service.py` — the record loop of
  `generate_newsletter_for_subscriber` (record every selected article).

SQLite rows are Lean structures, tables are lists of rows, Python dicts keyed
by strings are association lists (`List (String × _)`).  Timestamps are `Nat`.
-/

namespace StoryTracker

/-- Row of the `articles` table (`database.py`, `init_database`): columns
`id, url_hash, title, url, outlet, issue_area, scraped_at, excluded`. -/
structure ArticleRow where
  id : Nat
  url_hash : String
  title : String
  url : String
  outlet : String
  issue_area : String
  scraped_at : Nat
  excluded : Bool
deriving DecidableEq, Repr

/-- The `Article` dataclass of `article.py`: fields
`title, url, outlet, issue_area, id, scraped_at, excluded`.  The `id` is always
populated when the article comes out of a database query. -/
structure Article where
  title : String
  url : String
  outlet : String
  issue_area : String
  id : Nat
  scraped_at : Nat
  excluded : Bool
deriving DecidableEq, Repr

/-- `Article.from_dict` applied to a row dict produced by
`get_fresh_articles_for_subscriber`.  That dict has keys
`id, title, url, outlet, issue_area, scraped_at` and no `excluded` key, so
`from_dict` fills `excluded = data.get('excluded', False) = False`. -/
def Article.from_dict (row : ArticleRow) : Article :=
  { title := row.title
    url := row.url
    outlet := row.outlet
    issue_area := row.issue_area
    id := row.id
    scraped_at := row.scraped_at
    excluded := false }

/-- The `Subscriber` dataclass of `article.py` (row of the `subscribers` table). -/
structure Subscriber where
  id : Nat
  email : String
  issue_area_1 : String
  issue_area_2 : String
  issue_area_3 : String
  active : Bool
deriving DecidableEq, Repr

/-- `Subscriber.issue_areas` property. -/
def Subscriber.issue_areas (s : Subscriber) : List String :=
  [s.issue_area_1, s.issue_area_2, s.issue_area_3]

/-- Row of the `article_sends` table: `subscriber_id, article_id, campaign_id`
(the autoincrement `id` and `sent_at` columns are never observed by the
embedded operations, so they are omitted). -/
structure SendRecord where
  subscriber_id : Nat
  article_id : Nat
  campaign_id : Nat
deriving DecidableEq, Repr

/-- The persistent state managed by `DatabaseManager`: the four tables the
selection engine touches, plus the AUTOINCREMENT counter of the `articles`
table and the current clock used for `scraped_at DEFAULT CURRENT_TIMESTAMP`. -/
structure DatabaseManager where
  subscribers : List Subscriber
  articles : List ArticleRow
  article_sends : List SendRecord
  settings : List (String × String)
  next_article_id : Nat
  now : Nat
deriving DecidableEq, Repr

/-- Python `dict.get(k, default)` on an association list.  The embedded code
only ever stores one value per key (repeated Python dict assignments for the
same key always write the same value here), so first-match lookup agrees with
Python's last-write-wins dict. -/
def dictGet {α : Type} (d : List (String × α)) (k : String) (default : α) : α :=
  match d with
  | [] => default
  | (k', v) :: rest => if k' = k then v else dictGet rest k default

/-- `hashlib.md5(url.encode()).hexdigest()` — an external-library digest of the
URL (`database.py`, `add_article`; `article.py`, `Article.url_hash`).  Modelled
as an abstract deterministic digest; only determinism in the URL is relied on,
and the identity serves as the stand-in digest. -/
def md5_hexdigest (url : String) : String := url

/-- `DatabaseManager.get_setting`: look the key up in `admin_settings`
(`key` is the primary key), falling back to `default`. -/
def get_setting (db : DatabaseManager) (key : String)
    (default : Option String := none) : Option String :=
  match db.settings.find? (fun p => p.1 = key) with
  | some p => some p.2
  | none => default

/-- The condition of the `UNIQUE(subscriber_id, article_id)` constraint and of
the `LEFT JOIN article_sends s ON a.id = s.article_id AND s.subscriber_id = ?
... WHERE s.id IS NULL` filter: does a send record for this
(subscriber, article) pair exist? -/
def hasBeenSent (db : DatabaseManager) (subscriber_id article_id : Nat) : Bool :=
  db.article_sends.any
    (fun s => decide (s.subscriber_id = subscriber_id ∧ s.article_id = article_id))

/-- Newest-first comparison used by `ORDER BY a.scraped_at DESC`. -/
def newestFirst (a b : ArticleRow) : Prop := b.scraped_at ≤ a.scraped_at

instance : DecidableRel newestFirst :=
  fun a b => Nat.decLe b.scraped_at a.scraped_at

instance : IsTotal ArticleRow newestFirst :=
  ⟨fun a b => Nat.le_total b.scraped_at a.scraped_at⟩

instance : IsTrans ArticleRow newestFirst :=
  ⟨fun _ _ _ h1 h2 => Nat.le_trans h2 h1⟩

/-- The `WHERE` clause of the fresh-articles query
(`database.py:247-256`): same issue area, not excluded, no send record for
this subscriber. -/
def freshFilter (db : DatabaseManager) (subscriber_id : Nat) (issue_area : String) :
    List ArticleRow :=
  db.articles.filter
    (fun a => decide (a.issue_area = issue_area) && !a.excluded
      && !hasBeenSent db subscriber_id a.id)

/-- One per-topic query of `get_fresh_articles_for_subscriber`:
`SELECT ... WHERE issue_area = ? AND excluded = 0 AND s.id IS NULL
ORDER BY scraped_at DESC LIMIT 10`. -/
def freshQuery (db : DatabaseManager) (subscriber_id : Nat) (issue_area : String) :
    List ArticleRow :=
  (List.insertionSort newestFirst (freshFilter db subscriber_id issue_area)).take 10

/-- `DatabaseManager.get_fresh_articles_for_subscriber`: run the per-topic
query for each requested issue area and collect the results in a dict keyed by
issue area. -/
def get_fresh_articles_for_subscriber (db : DatabaseManager) (subscriber_id : Nat)
    (issue_areas : List String) : List (String × List ArticleRow) :=
  issue_areas.map (fun ia => (ia, freshQuery db subscriber_id ia))

/-- `DatabaseManager.add_article`: `INSERT OR IGNORE` keyed on the URL hash;
when the hash already exists, fetch and return the existing id, leaving the
stored row untouched.  Returns the article id together with the new state. -/
def add_article (db : DatabaseManager) (title url outlet issue_area : String) :
    Nat × DatabaseManager :=
  let url_hash := md5_hexdigest url
  match db.articles.find? (fun a => a.url_hash = url_hash) with
  | some a => (a.id, db)
  | none =>
      let article_id := db.next_article_id
      (article_id,
        { db with
          articles := db.articles ++
            [{ id := article_id, url_hash := url_hash, title := title, url := url,
               outlet := outlet, issue_area := issue_area, scraped_at := db.now,
               excluded := false }]
          next_article_id := article_id + 1 })

/-- `DatabaseManager.record_article_send`: `INSERT OR IGNORE INTO article_sends`
under the `UNIQUE(subscriber_id, article_id)` constraint — a duplicate pair is
silently ignored. -/
def record_article_send (db : DatabaseManager)
    (subscriber_id article_id campaign_id : Nat) : DatabaseManager :=
  if hasBeenSent db subscriber_id article_id then db
  else { db with
    article_sends := db.article_sends ++
      [{ subscriber_id := subscriber_id, article_id := article_id,
         campaign_id := campaign_id }] }

/-- `FallbackManager.FALLBACK_MAPPING` (`article.py:162-184`). -/
def FALLBACK_MAPPING : List (String × List String) :=
  [("Health", ["Mental Health", "Community Development"]),
   ("Mental Health", ["Health", "Social Services"]),
   ("Housing", ["Economic Development", "Community Development"]),
   ("Environment", ["Energy", "Agriculture", "Public Safety"]),
   ("Criminal Justice", ["Public Safety", "Community Development", "Mental Health"]),
   ("Economic Development", ["Housing", "Workforce Development", "Community Development"]),
   ("Democracy & Governance", ["Public Safety", "Community Development"]),
   ("Immigration", ["Social Services", "Community Development"]),
   ("Transportation", ["Infrastructure", "Public Safety", "Environment"]),
   ("Food Security", ["Agriculture", "Community Development", "Health"]),
   ("Community Development", ["Social Services", "Economic Development"]),
   ("Technology", ["Education", "Infrastructure"]),
   ("Energy", ["Environment", "Infrastructure"]),
   ("Agriculture", ["Food Security", "Environment", "Economic Development"]),
   ("Social Services", ["Community Development", "Mental Health"]),
   ("Arts & Culture", ["Community Development", "Education"]),
   ("Youth Development", ["Education", "Community Development"]),
   ("Senior Services", ["Health", "Social Services"]),
   ("Public Safety", ["Criminal Justice", "Community Development"]),
   ("Infrastructure", ["Transportation", "Economic Development"]),
   ("Workforce Development", ["Economic Development", "Education"])]

/-- `FallbackManager.get_fallback_categories`: the mapped list (empty for an
unknown topic), truncated to `max_fallbacks` (default 3). -/
def get_fallback_categories (primary_category : String)
    (max_fallbacks : Nat := 3) : List String :=
  (dictGet FALLBACK_MAPPING primary_category []).take max_fallbacks

/-- `FallbackManager.get_all_related_categories`: primary plus its fallbacks. -/
def get_all_related_categories (primary_category : String) : List String :=
  primary_category :: get_fallback_categories primary_category

/-- `ArticleSelector._get_articles_with_fallback` (`article.py:237-268`):
take up to `needed_count` primary articles, then, if short, walk the fallback
categories in listed order, appending from each up to the remaining need. -/
def get_articles_with_fallback (db : DatabaseManager) (subscriber_id : Nat)
    (primary_category : String) (needed_count : Nat) : List Article :=
  let all_categories := get_all_related_categories primary_category
  let articles_by_category :=
    get_fresh_articles_for_subscriber db subscriber_id all_categories
  let primary_articles := dictGet articles_by_category primary_category []
  let selected := (primary_articles.take needed_count).map Article.from_dict
  if selected.length < needed_count then
    (get_fallback_categories primary_category).foldl
      (fun sel fc =>
        if needed_count ≤ sel.length then sel
        else sel ++
          ((dictGet articles_by_category fc []).take (needed_count - sel.length)).map
            Article.from_dict)
      selected
  else selected

/-- `ArticleSelector.select_articles_for_subscriber` (`article.py:205-235`),
the returned dict: one entry per subscriber issue area (both branches of the
`if articles:` store the computed list, which is `[]` in the else-branch). -/
def select_articles_for_subscriber (db : DatabaseManager) (subscriber : Subscriber)
    (articles_per_category : Nat := 1) : List (String × List Article) :=
  subscriber.issue_areas.map
    (fun ia => (ia, get_articles_with_fallback db subscriber.id ia articles_per_category))

/-- One iteration's contribution to the `fallback_used` dict of
`select_articles_for_subscriber` (`article.py:221-230`): `(ia, true)` is
written when the list is empty, or when it holds fewer same-topic
(`primary_articles`) entries than total entries; otherwise no key is
written. -/
def usage_entry (db : DatabaseManager) (sid : Nat) (articles_per_category : Nat)
    (ia : String) : Option (String × Bool) :=
  let articles := get_articles_with_fallback db sid ia articles_per_category
  if articles = [] then some (ia, true)
  else if (articles.filter (fun a => decide (a.issue_area = ia))).length
      < articles.length then some (ia, true)
  else none

/-- The `self.last_fallback_usage` dict stored by the selection loop of
`select_articles_for_subscriber`.  Each iteration depends only on `ia`, so the
side-channel instance state is modelled as this second pure projection of the
loop. -/
def last_fallback_usage (db : DatabaseManager) (subscriber : Subscriber)
    (articles_per_category : Nat := 1) : List (String × Bool) :=
  subscriber.issue_areas.filterMap (usage_entry db subscriber.id articles_per_category)

/-- `ArticleSelector.was_fallback_used`, queried against the most recent
`select_articles_for_subscriber` call:
`getattr(self, 'last_fallback_usage', {}).get(issue_area, False)`. -/
def was_fallback_used (db : DatabaseManager) (subscriber : Subscriber)
    (articles_per_category : Nat) (issue_area : String) : Bool :=
  dictGet (last_fallback_usage db subscriber articles_per_category) issue_area false

/-- The record loop of `email_service.generate_newsletter_for_subscriber`
(`email_service.py:32-35`): for every issue area, for every selected article,
if `article.id` is truthy, record the send. -/
def record_selection (db : DatabaseManager) (subscriber_id : Nat)
    (selected : List (String × List Article)) (campaign_id : Nat) : DatabaseManager :=
  selected.foldl
    (fun d p =>
      p.2.foldl
        (fun d a =>
          if a.id ≠ 0 then record_article_send d subscriber_id a.id campaign_id else d)
        d)
    db

/-- The invariant of the `UNIQUE(subscriber_id, article_id)` constraint: no
two rows of the send ledger carry the same (subscriber, article) pair. -/
def sends_pairwise_unique (db : DatabaseManager) : Prop :=
  List.Pairwise
    (fun s t => ¬(s.subscriber_id = t.subscriber_id ∧ s.article_id = t.article_id))
    db.article_sends

/-- `AVAILABLE_ISSUE_AREAS` (`article.py:276-282`). -/
def AVAILABLE_ISSUE_AREAS : List String :=
  ["Education", "Health", "Housing", "Environment", "Criminal Justice",
   "Economic Development", "Democracy & Governance", "Immigration", "Transportation",
   "Food Security", "Mental Health", "Community Development", "Technology",
   "Energy", "Agriculture", "Social Services", "Arts & Culture", "Youth Development",
   "Senior Services", "Public Safety", "Infrastructure", "Workforce Development"]

/-! ### Concrete states used to exercise the definitions -/

/-- A fresh "Health" article. -/
def rowH : ArticleRow :=
  { id := 1, url_hash := "uH", title := "tH", url := "uH", outlet := "oH",
    issue_area := "Health", scraped_at := 30, excluded := false }

/-- A fresh "Mental Health" article. -/
def rowM : ArticleRow :=
  { id := 2, url_hash := "uM", title := "tM", url := "uM", outlet := "oM",
    issue_area := "Mental Health", scraped_at := 20, excluded := false }

/-- An excluded "Education" article. -/
def rowX : ArticleRow :=
  { id := 3, url_hash := "uX", title := "tX", url := "uX", outlet := "oX",
    issue_area := "Education", scraped_at := 40, excluded := true }

/-- A subscriber to Health, Mental Health and Education. -/
def subHME : Subscriber :=
  { id := 1, email := "s@x", issue_area_1 := "Health",
    issue_area_2 := "Mental Health", issue_area_3 := "Education", active := true }

/-- A store with one fresh Health article, one fresh Mental Health article and
an excluded Education article. -/
def db0 : DatabaseManager :=
  { subscribers := [subHME], articles := [rowH, rowM, rowX], article_sends := [],
    settings := [("fallback_enabled", "1")], next_article_id := 4, now := 50 }

/-- A store with a single fresh Mental Health article and no Health articles. -/
def dbM : DatabaseManager :=
  { subscribers := [subHME], articles := [rowM], article_sends := [],
    settings := [], next_article_id := 3, now := 50 }

/-- Same store as `dbM` but with the `fallback_enabled` setting switched off. -/
def dbC2 : DatabaseManager :=
  { subscribers := [subHME], articles := [rowM], article_sends := [],
    settings := [("fallback_enabled", "0")], next_article_id := 3, now := 50 }

/-- A store in which article 2 has already been sent to subscriber 1. -/
def dbSent : DatabaseManager :=
  { subscribers := [subHME], articles := [rowH, rowM, rowX],
    article_sends := [{ subscriber_id := 1, article_id := 2, campaign_id := 1 }],
    settings := [], next_article_id := 4, now := 50 }

/-! ### Helper lemmas about the embedded operations -/

/-- Looking a present key up in a dict built by mapping a value function over a
key list yields that key's value. -/
theorem dictGet_map_mem {α : Type} (f : String → α) (d : α) :
    ∀ (ias : List String) (ia : String), ia ∈ ias →
      dictGet (ias.map (fun x => (x, f x))) ia d = f ia := by
  intro ias
  induction ias with
  | nil => intro ia h; cases h
  | cons k rest ih =>
    intro ia h
    simp only [List.map_cons, dictGet]
    by_cases hk : k = ia
    · subst hk; simp
    · rw [if_neg hk]
      rcases List.mem_cons.mp h with he | hm
      · exact absurd he.symm hk
      · exact ih ia hm

/-- Looking an absent key up in a dict built by mapping over a key list yields
the default. -/
theorem dictGet_map_not_mem {α : Type} (f : String → α) (d : α) :
    ∀ (ias : List String) (ia : String), ia ∉ ias →
      dictGet (ias.map (fun x => (x, f x))) ia d = d := by
  intro ias
  induction ias with
  | nil => intro ia _; rfl
  | cons k rest ih =>
    intro ia h
    simp only [List.map_cons, dictGet]
    rw [if_neg (fun hk : k = ia => h (hk ▸ List.mem_cons_self k rest))]
    exact ih ia (fun hm => h (List.mem_cons_of_mem k hm))

/-- Every article returned by the per-topic fresh query is a stored article of
the requested topic, not excluded, with no send record for the subscriber. -/
theorem mem_freshQuery {db : DatabaseManager} {sid : Nat} {ia : String} {a : ArticleRow}
    (h : a ∈ freshQuery db sid ia) :
    a ∈ db.articles ∧ a.issue_area = ia ∧ a.excluded = false ∧
      hasBeenSent db sid a.id = false := by
  unfold freshQuery at h
  have h1 : a ∈ List.insertionSort newestFirst (freshFilter db sid ia) :=
    List.mem_of_mem_take h
  have h2 : a ∈ freshFilter db sid ia := (List.mem_insertionSort newestFirst).mp h1
  unfold freshFilter at h2
  have h3 := List.mem_filter.mp h2
  have h4 := h3.2
  simp only [Bool.and_eq_true, decide_eq_true_eq, Bool.not_eq_true'] at h4
  exact ⟨h3.1, h4.1.1, h4.1.2, h4.2⟩

/-- The fallback loop of `_get_articles_with_fallback` computes the
`needed`-prefix of the concatenation of the per-category pools, continued from
the accumulator. -/
theorem foldl_fallback_take (g : String → List Article) (n : Nat) :
    ∀ (cats : List String) (acc : List Article),
      cats.foldl
        (fun sel fc => if n ≤ sel.length then sel
          else sel ++ (g fc).take (n - sel.length)) acc
      = acc ++ (cats.flatMap g).take (n - acc.length) := by
  intro cats
  induction cats with
  | nil => intro acc; simp
  | cons c cs ih =>
    intro acc
    simp only [List.foldl_cons, List.flatMap_cons]
    by_cases hn : n ≤ acc.length
    · rw [if_pos hn, ih]
      have h0 : n - acc.length = 0 := Nat.sub_eq_zero_of_le hn
      simp [h0]
    · rw [if_neg hn, ih]
      rw [List.take_append_eq_append_take, ← List.append_assoc]
      congr 2
      simp only [List.length_append, List.length_take]
      omega

/-- The fallback loop of `get_articles_with_fallback`, literally as written
(looking each category's pool up in the fetched dict), computes the
`needed`-prefix of the concatenated per-category pools, continued from the
accumulator. -/
theorem foldl_fallback_dict (abc : List (String × List ArticleRow))
    (F : String → List ArticleRow) (n : Nat) :
    ∀ (cats : List String) (acc : List Article),
      (∀ fc ∈ cats, dictGet abc fc [] = F fc) →
      cats.foldl
        (fun sel fc => if n ≤ sel.length then sel
          else sel ++ ((dictGet abc fc []).take (n - sel.length)).map Article.from_dict)
        acc
      = acc ++ ((cats.flatMap F).take (n - acc.length)).map Article.from_dict := by
  intro cats
  induction cats with
  | nil => intro acc _; simp
  | cons c cs ih =>
    intro acc h
    simp only [List.foldl_cons, List.flatMap_cons]
    have hc : dictGet abc c [] = F c := h c (List.mem_cons_self c cs)
    have hcs : ∀ fc ∈ cs, dictGet abc fc [] = F fc :=
      fun fc hfc => h fc (List.mem_cons_of_mem c hfc)
    by_cases hn : n ≤ acc.length
    · rw [if_pos hn, ih _ hcs]
      have h0 : n - acc.length = 0 := Nat.sub_eq_zero_of_le hn
      simp [h0]
    · rw [if_neg hn, hc, ih _ hcs]
      rw [List.take_append_eq_append_take, List.map_append, ← List.append_assoc]
      congr 3
      simp only [List.length_append, List.length_map, List.length_take]
      omega

/-- `_get_articles_with_fallback` returns exactly the first `needed_count`
articles of: the primary topic's fresh pool followed by the fallback topics'
fresh pools in listed order. -/
theorem get_articles_with_fallback_eq (db : DatabaseManager) (sid : Nat)
    (T : String) (n : Nat) :
    get_articles_with_fallback db sid T n
      = ((freshQuery db sid T
            ++ (get_fallback_categories T).flatMap (freshQuery db sid)).take n).map
          Article.from_dict := by
  have habc : ∀ fc ∈ get_all_related_categories T,
      dictGet ((get_all_related_categories T).map
          (fun ia => (ia, freshQuery db sid ia))) fc []
        = freshQuery db sid fc :=
    fun fc hfc => dictGet_map_mem _ _ _ fc hfc
  have hT := habc T (List.mem_cons_self _ _)
  simp only [get_articles_with_fallback, get_fresh_articles_for_subscriber]
  rw [hT]
  by_cases hlen : (((freshQuery db sid T).take n).map Article.from_dict).length < n
  · rw [if_pos hlen,
      foldl_fallback_dict _ (freshQuery db sid) n _ _
        (fun fc hfc => habc fc (List.mem_cons_of_mem _ hfc))]
    rw [List.take_append_eq_append_take, List.map_append]
    congr 3
    simp only [List.length_map, List.length_take]
    omega
  · rw [if_neg hlen]
    have hn : n ≤ (freshQuery db sid T).length := by
      simp only [List.length_map, List.length_take] at hlen
      omega
    rw [List.take_append_of_le_length hn]

/-- The selection result maps each subscribed topic to the output of
`get_articles_with_fallback` for it. -/
theorem dictGet_select (db : DatabaseManager) (sub : Subscriber) (n : Nat)
    {T : String} (hT : T ∈ sub.issue_areas) :
    dictGet (select_articles_for_subscriber db sub n) T []
      = get_articles_with_fallback db sub.id T n := by
  simp only [select_articles_for_subscriber]
  exact dictGet_map_mem _ _ _ _ hT

/-- A topic the subscriber did not subscribe to is absent from the selection
result, so looking it up yields the empty default. -/
theorem dictGet_select_not_mem (db : DatabaseManager) (sub : Subscriber) (n : Nat)
    {T : String} (hT : T ∉ sub.issue_areas) :
    dictGet (select_articles_for_subscriber db sub n) T [] = [] := by
  simp only [select_articles_for_subscriber]
  exact dictGet_map_not_mem _ _ _ _ hT

/-- Every article in a selection result is the conversion of a stored,
non-excluded row with no send record for the subscriber. -/
theorem mem_select {db : DatabaseManager} {sub : Subscriber} {n : Nat}
    {T : String} {a : Article}
    (h : a ∈ dictGet (select_articles_for_subscriber db sub n) T []) :
    ∃ row ∈ db.articles, a = Article.from_dict row ∧ row.excluded = false ∧
      hasBeenSent db sub.id row.id = false := by
  by_cases hT : T ∈ sub.issue_areas
  · rw [dictGet_select db sub n hT, get_articles_with_fallback_eq] at h
    rcases List.mem_map.mp h with ⟨row, hrow, rfl⟩
    have hrow' := List.mem_of_mem_take hrow
    rcases List.mem_append.mp hrow' with h1 | h2
    · rcases mem_freshQuery h1 with ⟨hmem, _, hexc, hsent⟩
      exact ⟨row, hmem, rfl, hexc, hsent⟩
    · rcases List.mem_flatMap.mp h2 with ⟨fc, _, hfc⟩
      rcases mem_freshQuery hfc with ⟨hmem, _, hexc, hsent⟩
      exact ⟨row, hmem, rfl, hexc, hsent⟩
  · rw [dictGet_select_not_mem db sub n hT] at h
    exact absurd h (List.not_mem_nil a)

/-! ### The claims -/

/-- C3: for every subscribed topic `T` and requested count `n`, the selected
list for `T` is the `n`-prefix of `T`'s own fresh pool (newest first)
followed by the fresh pools of `T`'s fallback topics in listed order; when
fewer than `n` articles exist in total, all of them are returned, so the
length is the minimum of `n` and the total pool size. -/
theorem claim_C3_fallback_order (db : DatabaseManager) (sub : Subscriber)
    (n : Nat) (T : String) (hT : T ∈ sub.issue_areas) :
    dictGet (select_articles_for_subscriber db sub n) T []
      = ((freshQuery db sub.id T
            ++ (get_fallback_categories T).flatMap (freshQuery db sub.id)).take n).map
          Article.from_dict
    ∧ (dictGet (select_articles_for_subscriber db sub n) T []).length
      = min n (freshQuery db sub.id T
            ++ (get_fallback_categories T).flatMap (freshQuery db sub.id)).length := by
  rw [dictGet_select db sub n hT, get_articles_with_fallback_eq]
  exact ⟨rfl, by simp [List.length_map, List.length_take]⟩

/-- Witness for C3 at a concrete store: subscriber 1 asks for two Health
articles; the store has one fresh Health and one fresh Mental Health
article. -/
theorem claim_C3_witness :
    "Health" ∈ subHME.issue_areas
    ∧ (dictGet (select_articles_for_subscriber db0 subHME 2) "Health" []
        = ((freshQuery db0 subHME.id "Health"
              ++ (get_fallback_categories "Health").flatMap
                  (freshQuery db0 subHME.id)).take 2).map Article.from_dict
      ∧ (dictGet (select_articles_for_subscriber db0 subHME 2) "Health" []).length
        = min 2 (freshQuery db0 subHME.id "Health"
              ++ (get_fallback_categories "Health").flatMap
                  (freshQuery db0 subHME.id)).length) :=
  ⟨by decide, claim_C3_fallback_order db0 subHME 2 "Health" (by decide)⟩

/-- C5: the fresh-articles query answers every requested topic (an empty list,
not an error, when nothing matches), returns at most 10 articles per topic,
newest first, all stored, not excluded, of the requested topic and never sent
to the subscriber; consequently every article in a selection result is backed
by a stored row that is not excluded. -/
theorem claim_C5_fresh_query (db : DatabaseManager) (sid : Nat)
    (ias : List String) (ia : String) (sub : Subscriber) (n : Nat) (h : ia ∈ ias) :
    (ia, dictGet (get_fresh_articles_for_subscriber db sid ias) ia [])
        ∈ get_fresh_articles_for_subscriber db sid ias
    ∧ (dictGet (get_fresh_articles_for_subscriber db sid ias) ia []).length ≤ 10
    ∧ List.Pairwise newestFirst (dictGet (get_fresh_articles_for_subscriber db sid ias) ia [])
    ∧ (∀ a ∈ dictGet (get_fresh_articles_for_subscriber db sid ias) ia [],
        a ∈ db.articles ∧ a.excluded = false ∧ a.issue_area = ia ∧
          hasBeenSent db sid a.id = false)
    ∧ (∀ T a, a ∈ dictGet (select_articles_for_subscriber db sub n) T [] →
        a.excluded = false ∧ ∃ row ∈ db.articles, row.id = a.id ∧ row.excluded = false) := by
  have hq : dictGet (get_fresh_articles_for_subscriber db sid ias) ia []
      = freshQuery db sid ia := by
    simp only [get_fresh_articles_for_subscriber]
    exact dictGet_map_mem _ _ _ _ h
  refine ⟨?_, ?_, ?_, ?_, ?_⟩
  · rw [hq]
    simp only [get_fresh_articles_for_subscriber]
    exact List.mem_map.mpr ⟨ia, h, rfl⟩
  · rw [hq]
    unfold freshQuery
    exact List.length_take_le 10 _
  · rw [hq]
    unfold freshQuery
    exact List.Pairwise.sublist (List.take_sublist _ _)
      (List.sorted_insertionSort newestFirst _)
  · rw [hq]
    intro a ha
    rcases mem_freshQuery ha with ⟨h1, h2, h3, h4⟩
    exact ⟨h1, h3, h2, h4⟩
  · intro T a haT
    rcases mem_select haT with ⟨row, hrow, rfl, hexc, _⟩
    exact ⟨rfl, row, hrow, rfl, hexc⟩

/-- Witness for C5 at a concrete store and the topic "Health". -/
theorem claim_C5_witness :
    "Health" ∈ ["Health", "Housing"]
    ∧ (("Health", dictGet (get_fresh_articles_for_subscriber db0 1 ["Health", "Housing"]) "Health" [])
          ∈ get_fresh_articles_for_subscriber db0 1 ["Health", "Housing"]
      ∧ (dictGet (get_fresh_articles_for_subscriber db0 1 ["Health", "Housing"]) "Health" []).length ≤ 10
      ∧ List.Pairwise newestFirst
          (dictGet (get_fresh_articles_for_subscriber db0 1 ["Health", "Housing"]) "Health" [])
      ∧ (∀ a ∈ dictGet (get_fresh_articles_for_subscriber db0 1 ["Health", "Housing"]) "Health" [],
          a ∈ db0.articles ∧ a.excluded = false ∧ a.issue_area = "Health" ∧
            hasBeenSent db0 1 a.id = false)
      ∧ (∀ T a, a ∈ dictGet (select_articles_for_subscriber db0 subHME 1) T [] →
          a.excluded = false ∧ ∃ row ∈ db0.articles, row.id = a.id ∧ row.excluded = false)) :=
  ⟨by decide, claim_C5_fresh_query db0 1 ["Health", "Housing"] "Health" subHME 1 (by decide)⟩

/-- Recording one send never erases an existing send record. -/
theorem hasBeenSent_record_mono (db : DatabaseManager) (s a c : Nat) {s' a' : Nat}
    (h : hasBeenSent db s' a' = true) :
    hasBeenSent (record_article_send db s a c) s' a' = true := by
  unfold record_article_send
  by_cases hb : hasBeenSent db s a
  · rw [if_pos hb]; exact h
  · rw [if_neg hb]
    simp only [hasBeenSent] at h ⊢
    simp only [List.any_append, Bool.or_eq_true]
    exact Or.inl h

/-- After recording a pair, that pair has a send record. -/
theorem hasBeenSent_record_self (db : DatabaseManager) (s a c : Nat) :
    hasBeenSent (record_article_send db s a c) s a = true := by
  unfold record_article_send
  by_cases hb : hasBeenSent db s a
  · rw [if_pos hb]; exact hb
  · rw [if_neg hb]
    simp [hasBeenSent, List.any_append]

/-- The inner record loop (over one topic's articles) never erases an
existing send record. -/
theorem hasBeenSent_inner_mono (sid cid : Nat) (l : List Article) :
    ∀ (db : DatabaseManager) {s a : Nat}, hasBeenSent db s a = true →
      hasBeenSent
        (l.foldl (fun d x => if x.id ≠ 0 then record_article_send d sid x.id cid else d) db)
        s a = true := by
  induction l with
  | nil => intro db s a h; exact h
  | cons x xs ih =>
    intro db s a h
    simp only [List.foldl_cons]
    apply ih
    by_cases hx : x.id ≠ 0
    · rw [if_pos hx]; exact hasBeenSent_record_mono _ _ _ _ h
    · rw [if_neg hx]; exact h

/-- The inner record loop records every article of the list whose id is
nonzero. -/
theorem hasBeenSent_inner_self (sid cid : Nat) (l : List Article) :
    ∀ (db : DatabaseManager) {a : Article}, a ∈ l → a.id ≠ 0 →
      hasBeenSent
        (l.foldl (fun d x => if x.id ≠ 0 then record_article_send d sid x.id cid else d) db)
        sid a.id = true := by
  induction l with
  | nil => intro db a h; cases h
  | cons x xs ih =>
    intro db a hmem hid
    simp only [List.foldl_cons]
    rcases List.mem_cons.mp hmem with rfl | hmem'
    · apply hasBeenSent_inner_mono
      rw [if_pos hid]
      exact hasBeenSent_record_self _ _ _ _
    · exact ih _ hmem' hid

/-- The outer record loop (over the selection dict) never erases an existing
send record. -/
theorem hasBeenSent_outer_mono (sid cid : Nat) (sel : List (String × List Article)) :
    ∀ (db : DatabaseManager) {s a : Nat}, hasBeenSent db s a = true →
      hasBeenSent
        (sel.foldl (fun d p =>
          p.2.foldl (fun d x => if x.id ≠ 0 then record_article_send d sid x.id cid else d) d)
          db)
        s a = true := by
  induction sel with
  | nil => intro db s a h; exact h
  | cons p ps ih =>
    intro db s a h
    simp only [List.foldl_cons]
    exact ih _ (hasBeenSent_inner_mono sid cid p.2 db h)

/-- `record_selection` records every selected article with a nonzero id. -/
theorem hasBeenSent_record_selection (db : DatabaseManager) (sid cid : Nat)
    (sel : List (String × List Article)) {T : String} {l : List Article} {a : Article}
    (hTl : (T, l) ∈ sel) (ha : a ∈ l) (hid : a.id ≠ 0) :
    hasBeenSent (record_selection db sid sel cid) sid a.id = true := by
  unfold record_selection
  induction sel generalizing db with
  | nil => cases hTl
  | cons p ps ih =>
    simp only [List.foldl_cons]
    rcases List.mem_cons.mp hTl with heq | hmem
    · rw [← heq]
      exact hasBeenSent_outer_mono sid cid ps _
        (hasBeenSent_inner_self sid cid l _ ha hid)
    · exact ih _ hmem

/-- C1: no-repeat invariant.  If the first selection's articles are all
recorded (as the email service does after a real send), a second selection
for the same subscriber over the same pool contains none of the first
selection's articles, whatever pair of topics the two occurrences would be
under.  The hypothesis that stored ids are nonzero reflects SQLite
AUTOINCREMENT ids, which start at 1. -/
theorem claim_C1_no_repeat (db : DatabaseManager) (sub : Subscriber) (n cid : Nat)
    (T1 T2 : String) (a : Article)
    (hids : ∀ row ∈ db.articles, row.id ≠ 0)
    (h1 : a ∈ dictGet (select_articles_for_subscriber db sub n) T1 []) :
    a ∉ dictGet (select_articles_for_subscriber
        (record_selection db sub.id (select_articles_for_subscriber db sub n) cid)
        sub n) T2 [] := by
  intro h2
  rcases mem_select h1 with ⟨row1, hrow1, ha1, _, _⟩
  have hid : a.id ≠ 0 := by rw [ha1]; exact hids row1 hrow1
  by_cases hT1 : T1 ∈ sub.issue_areas
  · have hTl : (T1, dictGet (select_articles_for_subscriber db sub n) T1 [])
        ∈ select_articles_for_subscriber db sub n := by
      rw [dictGet_select db sub n hT1]
      simp only [select_articles_for_subscriber]
      exact List.mem_map.mpr ⟨T1, hT1, rfl⟩
    have hsent := hasBeenSent_record_selection db sub.id cid
      (select_articles_for_subscriber db sub n) hTl h1 hid
    rcases mem_select h2 with ⟨row2, _, ha2, _, hfresh⟩
    have hno : hasBeenSent
        (record_selection db sub.id (select_articles_for_subscriber db sub n) cid)
        sub.id a.id = false := by
      rw [ha2]; exact hfresh
    rw [hno] at hsent
    cases hsent
  · rw [dictGet_select_not_mem db sub n hT1] at h1
    exact absurd h1 (List.not_mem_nil a)

/-- Witness for C1: in `db0`, the Health selection returns the Health article;
after recording the whole selection, a second selection no longer contains
it. -/
theorem claim_C1_witness :
    (∀ row ∈ db0.articles, row.id ≠ 0)
    ∧ Article.from_dict rowH ∈ dictGet (select_articles_for_subscriber db0 subHME 1) "Health" []
    ∧ Article.from_dict rowH ∉ dictGet (select_articles_for_subscriber
        (record_selection db0 subHME.id (select_articles_for_subscriber db0 subHME 1) 7)
        subHME 1) "Health" [] :=
  ⟨by decide, by decide,
    claim_C1_no_repeat db0 subHME 1 7 "Health" "Health" (Article.from_dict rowH)
      (by decide) (by decide)⟩

/-- A usage entry is either skipped or the pair `(ia, true)`. -/
theorem usage_entry_none_or_some (db : DatabaseManager) (sid n : Nat) (ia : String) :
    usage_entry db sid n ia = none ∨ usage_entry db sid n ia = some (ia, true) := by
  unfold usage_entry
  by_cases h1 : get_articles_with_fallback db sid ia n = []
  · right; simp [h1]
  · by_cases h2 : ((get_articles_with_fallback db sid ia n).filter
        (fun a => decide (a.issue_area = ia))).length
        < (get_articles_with_fallback db sid ia n).length
    · right; simp [h1, h2]
    · left; simp [h1, h2]

/-- A usage entry is written exactly when the selected list is empty or
contains a non-primary article. -/
theorem usage_entry_eq_some_iff (db : DatabaseManager) (sid n : Nat) (ia : String) :
    usage_entry db sid n ia = some (ia, true)
      ↔ (get_articles_with_fallback db sid ia n = []
        ∨ ((get_articles_with_fallback db sid ia n).filter
            (fun a => decide (a.issue_area = ia))).length
            < (get_articles_with_fallback db sid ia n).length) := by
  unfold usage_entry
  by_cases h1 : get_articles_with_fallback db sid ia n = []
  · simp [h1]
  · by_cases h2 : ((get_articles_with_fallback db sid ia n).filter
        (fun a => decide (a.issue_area = ia))).length
        < (get_articles_with_fallback db sid ia n).length
    · simp [h1, h2]
    · simp [h1, h2]

/-- Topics outside the key list have no usage entry, so the lookup defaults to
`false`. -/
theorem usage_lookup_not_mem (db : DatabaseManager) (sid n : Nat) :
    ∀ (ias : List String) (T : String), T ∉ ias →
      dictGet (ias.filterMap (usage_entry db sid n)) T false = false := by
  intro ias
  induction ias with
  | nil => intro T _; rfl
  | cons k rest ih =>
    intro T h
    have hk : k ≠ T := fun he => h (he ▸ List.mem_cons_self k rest)
    have hr : T ∉ rest := fun hm => h (List.mem_cons_of_mem k hm)
    rcases usage_entry_none_or_some db sid n k with hnone | hsome
    · rw [List.filterMap_cons_none hnone]
      exact ih T hr
    · rw [List.filterMap_cons_some hsome]
      simp only [dictGet]
      rw [if_neg hk]
      exact ih T hr

/-- For a subscribed topic, the usage lookup is `true` exactly when an entry
was written for it. -/
theorem usage_lookup_mem (db : DatabaseManager) (sid n : Nat) :
    ∀ (ias : List String) (T : String), T ∈ ias →
      (dictGet (ias.filterMap (usage_entry db sid n)) T false = true
        ↔ usage_entry db sid n T = some (T, true)) := by
  intro ias
  induction ias with
  | nil => intro T h; cases h
  | cons k rest ih =>
    intro T hT
    by_cases hk : k = T
    · subst hk
      rcases usage_entry_none_or_some db sid n k with hnone | hsome
      · by_cases hr : k ∈ rest
        · rw [List.filterMap_cons_none hnone]
          exact ih k hr
        · rw [List.filterMap_cons_none hnone,
            usage_lookup_not_mem db sid n rest k hr, hnone]
          simp
      · rw [List.filterMap_cons_some hsome]
        simp only [dictGet]
        simp [hsome]
    · have hm : T ∈ rest := by
        rcases List.mem_cons.mp hT with he | hm
        · exact absurd he.symm hk
        · exact hm
      rcases usage_entry_none_or_some db sid n k with hnone | hsome
      · rw [List.filterMap_cons_none hnone]
        exact ih T hm
      · rw [List.filterMap_cons_some hsome]
        simp only [dictGet]
        rw [if_neg hk]
        exact ih T hm

/-- A filter drops an element exactly when some listed element fails the
predicate. -/
theorem filter_length_lt_iff {l : List Article} {T : String} :
    ((l.filter (fun a => decide (a.issue_area = T))).length < l.length)
      ↔ ∃ a ∈ l, a.issue_area ≠ T := by
  constructor
  · intro h
    by_contra hno
    push_neg at hno
    have hall : ∀ a ∈ l, (fun a => decide (a.issue_area = T)) a = true :=
      fun a ha => by simpa using hno a ha
    rw [List.filter_length_eq_length.mpr hall] at h
    exact Nat.lt_irrefl _ h
  · rintro ⟨a, ha, hne⟩
    apply Nat.lt_of_le_of_ne (List.length_filter_le _ _)
    intro heq
    have := List.filter_length_eq_length.mp heq a ha
    simp only [decide_eq_true_eq] at this
    exact hne this

/-- C4: after a selection, `was_fallback_used(T)` for a subscribed topic `T`
is `true` exactly when the selected list for `T` contains an article of a
different topic, or is empty. -/
theorem claim_C4_fallback_flag (db : DatabaseManager) (sub : Subscriber) (n : Nat)
    (T : String) (hT : T ∈ sub.issue_areas) :
    was_fallback_used db sub n T = true ↔
      ((∃ a ∈ dictGet (select_articles_for_subscriber db sub n) T [], a.issue_area ≠ T)
        ∨ dictGet (select_articles_for_subscriber db sub n) T [] = []) := by
  rw [dictGet_select db sub n hT]
  simp only [was_fallback_used, last_fallback_usage]
  rw [usage_lookup_mem db sub.id n sub.issue_areas T hT,
    usage_entry_eq_some_iff db sub.id n T, filter_length_lt_iff]
  exact or_comm

/-- Witness for C4: in `db0` the "Education" topic selects nothing (its only
article is excluded and it has no fallback topics), and the flag is `true`
via the empty case. -/
theorem claim_C4_witness :
    "Education" ∈ subHME.issue_areas
    ∧ (was_fallback_used db0 subHME 1 "Education" = true ↔
        ((∃ a ∈ dictGet (select_articles_for_subscriber db0 subHME 1) "Education" [],
            a.issue_area ≠ "Education")
          ∨ dictGet (select_articles_for_subscriber db0 subHME 1) "Education" [] = [])) :=
  ⟨by decide, claim_C4_fallback_flag db0 subHME 1 "Education" (by decide)⟩

/-- C7: recording an already-present (subscriber, article) pair is a silent
no-op (the state is returned unchanged, no error path exists), a fresh ledger
satisfies the at-most-one-record-per-pair invariant, and recording preserves
that invariant, so at most one send record ever exists per pair. -/
theorem claim_C7_idempotent_record (db : DatabaseManager) (sid aid cid : Nat) :
    (hasBeenSent db sid aid = true → record_article_send db sid aid cid = db)
    ∧ (db.article_sends = [] → sends_pairwise_unique db)
    ∧ (sends_pairwise_unique db → sends_pairwise_unique (record_article_send db sid aid cid)) := by
  refine ⟨?_, ?_, ?_⟩
  · intro h
    unfold record_article_send
    rw [if_pos h]
  · intro h
    unfold sends_pairwise_unique
    rw [h]
    exact List.Pairwise.nil
  · intro hu
    unfold record_article_send
    by_cases hb : hasBeenSent db sid aid
    · rw [if_pos hb]
      exact hu
    · rw [if_neg hb]
      unfold sends_pairwise_unique at hu ⊢
      rw [List.pairwise_append]
      refine ⟨hu, List.pairwise_singleton _ _, ?_⟩
      intro s hs t ht
      have ht' := List.mem_singleton.mp ht
      subst ht'
      rintro ⟨h1, h2⟩
      apply hb
      unfold hasBeenSent
      rw [List.any_eq_true]
      exact ⟨s, hs, by simp [h1, h2]⟩

/-- Witness for C7: in `dbSent` the pair (subscriber 1, article 2) is already
recorded; re-recording it returns the state unchanged and keeps the ledger
duplicate-free. -/
theorem claim_C7_witness :
    record_article_send dbSent 1 2 3 = dbSent
    ∧ sends_pairwise_unique (record_article_send dbSent 1 2 3) :=
  ⟨(claim_C7_idempotent_record dbSent 1 2 3).1 (by decide),
    (claim_C7_idempotent_record dbSent 1 2 3).2.2
      (by unfold sends_pairwise_unique; decide)⟩

/-- When the URL hash is already stored, `add_article` returns the existing id
and leaves the state unchanged. -/
theorem add_article_found (db : DatabaseManager) (u : String) (a : ArticleRow)
    (t o i : String)
    (hf : db.articles.find? (fun x => decide (x.url_hash = md5_hexdigest u)) = some a) :
    add_article db t u o i = (a.id, db) := by
  simp only [add_article]
  rw [hf]

/-- When the URL hash is new, `add_article` appends a fresh row carrying the
submitted metadata and returns the fresh id. -/
theorem add_article_new {db : DatabaseManager} {u : String} (t o i : String)
    (hf : db.articles.find? (fun x => decide (x.url_hash = md5_hexdigest u)) = none) :
    add_article db t u o i =
      (db.next_article_id,
        { db with
          articles := db.articles ++
            [{ id := db.next_article_id, url_hash := md5_hexdigest u, title := t,
               url := u, outlet := o, issue_area := i, scraped_at := db.now,
               excluded := false }]
          next_article_id := db.next_article_id + 1 }) := by
  simp only [add_article]
  rw [hf]

/-- C6: `add_article` is idempotent on the URL hash — re-submitting the same
URL with any other metadata returns the id of the first submission and
changes nothing; and if the hash was new, the stored row keeps the first
submission's metadata (first-write-wins). -/
theorem claim_C6_idempotent_add (db : DatabaseManager)
    (t1 u o1 i1 t2 o2 i2 : String) :
    (add_article (add_article db t1 u o1 i1).2 t2 u o2 i2).1 = (add_article db t1 u o1 i1).1
    ∧ (add_article (add_article db t1 u o1 i1).2 t2 u o2 i2).2 = (add_article db t1 u o1 i1).2
    ∧ ((∀ row ∈ db.articles, row.url_hash ≠ md5_hexdigest u) →
        ∃ row ∈ (add_article db t1 u o1 i1).2.articles,
          row.id = (add_article db t1 u o1 i1).1 ∧ row.url_hash = md5_hexdigest u ∧
          row.title = t1 ∧ row.url = u ∧ row.outlet = o1 ∧ row.issue_area = i1) := by
  cases hf : db.articles.find? (fun x => decide (x.url_hash = md5_hexdigest u)) with
  | some a =>
    have h1 := add_article_found db u a t1 o1 i1 hf
    have h2 := add_article_found db u a t2 o2 i2 hf
    refine ⟨?_, ?_, ?_⟩
    · simp only [h1, h2]
    · simp only [h1, h2]
    · intro hno
      have hpa : a.url_hash = md5_hexdigest u := by
        have := List.find?_some hf
        simpa using this
      exact absurd hpa (hno a (List.mem_of_find?_eq_some hf))
  | none =>
    have h1 := add_article_new t1 o1 i1 hf
    have hf2 : (db.articles ++
        [{ id := db.next_article_id, url_hash := md5_hexdigest u, title := t1,
           url := u, outlet := o1, issue_area := i1, scraped_at := db.now,
           excluded := false : ArticleRow }]).find?
        (fun x => decide (x.url_hash = md5_hexdigest u))
        = some { id := db.next_article_id, url_hash := md5_hexdigest u, title := t1,
                 url := u, outlet := o1, issue_area := i1, scraped_at := db.now,
                 excluded := false } := by
      rw [List.find?_append, hf]
      simp
    have h2 := add_article_found
      { db with
        articles := db.articles ++
          [{ id := db.next_article_id, url_hash := md5_hexdigest u, title := t1,
             url := u, outlet := o1, issue_area := i1, scraped_at := db.now,
             excluded := false }]
        next_article_id := db.next_article_id + 1 }
      u
      { id := db.next_article_id, url_hash := md5_hexdigest u, title := t1,
        url := u, outlet := o1, issue_area := i1, scraped_at := db.now,
        excluded := false }
      t2 o2 i2 hf2
    refine ⟨?_, ?_, ?_⟩
    · simp only [h1, h2]
    · simp only [h1, h2]
    · intro _
      simp only [h1]
      exact ⟨_, List.mem_append_right _ (List.mem_singleton.mpr rfl),
        rfl, rfl, rfl, rfl, rfl, rfl⟩

/-- Witness for C6: adding a brand-new URL to `db0` twice with different
metadata yields the same id, an unchanged second state, and the stored row
carries the first submission's metadata. -/
theorem claim_C6_witness :
    (add_article (add_article db0 "first title" "unew" "out1" "Health").2
        "second title" "unew" "out2" "Housing").1
      = (add_article db0 "first title" "unew" "out1" "Health").1
    ∧ (add_article (add_article db0 "first title" "unew" "out1" "Health").2
        "second title" "unew" "out2" "Housing").2
      = (add_article db0 "first title" "unew" "out1" "Health").2
    ∧ ∃ row ∈ (add_article db0 "first title" "unew" "out1" "Health").2.articles,
        row.id = (add_article db0 "first title" "unew" "out1" "Health").1
        ∧ row.url_hash = md5_hexdigest "unew" ∧ row.title = "first title"
        ∧ row.url = "unew" ∧ row.outlet = "out1" ∧ row.issue_area = "Health" :=
  ⟨(claim_C6_idempotent_add db0 "first title" "unew" "out1" "Health"
      "second title" "out2" "Housing").1,
   (claim_C6_idempotent_add db0 "first title" "unew" "out1" "Health"
      "second title" "out2" "Housing").2.1,
   (claim_C6_idempotent_add db0 "first title" "unew" "out1" "Health"
      "second title" "out2" "Housing").2.2 (by decide)⟩

/-- C2 (bug evidence): the selector never reads the settings table, so the
`fallback_enabled` toggle cannot influence selection — with the setting
stored as "0" and zero fresh Health articles, the Health result is still a
nonempty list of fallback (non-Health) articles instead of the empty list the
spec requires. -/
theorem claim_C2_fallback_setting_ignored :
    (∀ (db : DatabaseManager) (s : List (String × String)) (sub : Subscriber) (n : Nat),
        select_articles_for_subscriber { db with settings := s } sub n
          = select_articles_for_subscriber db sub n)
    ∧ get_setting dbC2 "fallback_enabled" = some "0"
    ∧ dictGet (select_articles_for_subscriber dbC2 subHME 1) "Health" [] ≠ []
    ∧ ∀ a ∈ dictGet (select_articles_for_subscriber dbC2 subHME 1) "Health" [],
        a.issue_area ≠ "Health" :=
  ⟨fun _ _ _ _ => rfl, by decide, by decide, by decide⟩

/-- C8 (counterexample): in `db0` there is no subscriber 99 and no article 77,
yet recording a send for the pair succeeds and changes the ledger, and the
fresh-articles query for the unknown subscriber 99 answers normally — no
NotFound error is raised and the operations silently continue. -/
theorem claim_C8_counterexample :
    (∀ s ∈ db0.subscribers, s.id ≠ 99)
    ∧ (∀ a ∈ db0.articles, a.id ≠ 77)
    ∧ record_article_send db0 99 77 1 ≠ db0
    ∧ ({ subscriber_id := 99, article_id := 77, campaign_id := 1 } : SendRecord)
        ∈ (record_article_send db0 99 77 1).article_sends
    ∧ get_fresh_articles_for_subscriber db0 99 ["Health"] = [("Health", [rowH])] :=
  ⟨by decide, by decide, by decide, by decide, by decide⟩

/-- C8 (amended): unknown subscriber and article ids are not validated — the
send is recorded silently, and the fresh-articles query never consults the
subscribers table, treating an unknown subscriber exactly like one with no
send history. -/
theorem claim_C8_amended (db : DatabaseManager) (sid aid cid : Nat) (ias : List String)
    (_hs : ∀ s ∈ db.subscribers, s.id ≠ sid) (_ha : ∀ a ∈ db.articles, a.id ≠ aid)
    (hnew : hasBeenSent db sid aid = false) :
    ({ subscriber_id := sid, article_id := aid, campaign_id := cid } : SendRecord)
        ∈ (record_article_send db sid aid cid).article_sends
    ∧ get_fresh_articles_for_subscriber db sid ias
        = get_fresh_articles_for_subscriber { db with subscribers := [] } sid ias := by
  constructor
  · unfold record_article_send
    rw [if_neg (show ¬hasBeenSent db sid aid = true by simp [hnew])]
    simp
  · rfl

/-- Witness for the amended C8 at `db0` with unknown subscriber 99 and unknown
article 77. -/
theorem claim_C8_amended_witness :
    ({ subscriber_id := 99, article_id := 77, campaign_id := 1 } : SendRecord)
        ∈ (record_article_send db0 99 77 1).article_sends
    ∧ get_fresh_articles_for_subscriber db0 99 ["Health"]
        = get_fresh_articles_for_subscriber { db0 with subscribers := [] } 99 ["Health"] :=
  claim_C8_amended db0 99 77 1 ["Health"] (by decide) (by decide) (by decide)

/-- C9: selection and the fallback-usage record are fully deterministic
functions of the store contents — two stores agreeing on articles, send
records, settings and subscribers (whatever their id counters or clocks)
yield identical selection results. -/
theorem claim_C9_deterministic (db1 db2 : DatabaseManager) (sub : Subscriber) (n : Nat)
    (ha : db1.articles = db2.articles) (hs : db1.article_sends = db2.article_sends)
    (hset : db1.settings = db2.settings) (hsub : db1.subscribers = db2.subscribers) :
    select_articles_for_subscriber db1 sub n = select_articles_for_subscriber db2 sub n
    ∧ last_fallback_usage db1 sub n = last_fallback_usage db2 sub n := by
  obtain ⟨s1, a1, se1, st1, c1, t1⟩ := db1
  obtain ⟨s2, a2, se2, st2, c2, t2⟩ := db2
  simp only at ha hs hset hsub
  subst ha
  subst hs
  subst hset
  subst hsub
  exact ⟨rfl, rfl⟩

/-- Witness for C9: `db0` and a copy with a different id counter select
identically. -/
theorem claim_C9_witness :
    select_articles_for_subscriber db0 subHME 1
      = select_articles_for_subscriber { db0 with next_article_id := 99 } subHME 1
    ∧ last_fallback_usage db0 subHME 1
      = last_fallback_usage { db0 with next_article_id := 99 } subHME 1 :=
  claim_C9_deterministic db0 { db0 with next_article_id := 99 } subHME 1 rfl rfl rfl rfl

/-- C10: topics are selected independently against the same fresh pool, so one
article can appear under two different topics of a single selection result:
in `dbM`, the only (Mental Health) article is returned both as Health's
fallback pick and as Mental Health's primary pick. -/
theorem claim_C10_shared_article_across_topics :
    Article.from_dict rowM
        ∈ dictGet (select_articles_for_subscriber dbM subHME 1) "Health" []
    ∧ Article.from_dict rowM
        ∈ dictGet (select_articles_for_subscriber dbM subHME 1) "Mental Health" []
    ∧ ("Health" : String) ≠ "Mental Health" :=
  ⟨by decide, by decide, by decide⟩

end StoryTracker
